import Mathlib

/-!
Shallow embedding of the client-side synchronization layer of the wuya
social/study-tracking application: the in-memory posts cache and its
freshness policy (src/services/socialService.ts), the optimistic
mutation handlers and realtime merge handlers of the feed view
(src/components/SquareView.tsx), the search sequencing of the friends
view (src/components/FriendsView.tsx), the note date mapping
(src/services/noteService.ts) and the friendship response guard
(src/services/notificationService.ts, friendService).

Remote calls are modelled by an explicit `Except String` argument that
stands for the resolved or rejected server response; `Except.error`
in a result models a rejected promise (a JS `throw`), `Except.ok`
models a successful resolution.  Timestamps are milliseconds since
epoch as `Int`.  Calendar-day strings of the form YYYY-MM-DD are
modelled injectively by their day number (days since epoch, `Int`).
-/

/-- The feed/cache representation of a post, the fields touched by the
synchronization logic (src/types, as mapped in socialService.getPosts).
Fields not read or written by any modelled operation (author snapshot,
images, tags, display time) are omitted. -/
structure Post where
  id : String
  userId : String
  content : String
  likes : Int
  comments : Int
  isLiked : Bool
  isBookmarked : Bool
deriving Repr, DecidableEq

/-- The module-level posts cache of socialService.ts:
`postsCache = { data, timestamp } | null`. -/
structure PostsCache where
  data : List Post
  timestamp : Int
deriving Repr, DecidableEq

/-- socialService.ts line 8: `CACHE_TTL = 5 * 60 * 1000`. -/
def CACHE_TTL : Int := 5 * 60 * 1000

/-- The fetch-and-map tail of socialService.getPosts: on a remote
error it logs and returns `[]` (still a successful resolution); on
success it maps the rows and, for page 0, replaces the cache
wholesale with a fresh timestamp. Result is the new cache paired with
the resolved value. -/
def getPostsFetch (cache : Option PostsCache) (page : Nat) (now : Int)
    (remote : Except String (List Post)) :
    Option PostsCache × Except String (List Post) :=
  match remote with
  | Except.error _ => (cache, Except.ok [])
  | Except.ok posts =>
      (if page = 0 then some { data := posts, timestamp := now } else cache,
       Except.ok posts)

/-- socialService.getPosts(page, pageSize, forceRefresh): serve the
cache for page 0 when not forced and younger than CACHE_TTL,
otherwise fetch. -/
def getPostsModel (cache : Option PostsCache) (page : Nat)
    (forceRefresh : Bool) (now : Int)
    (remote : Except String (List Post)) :
    Option PostsCache × Except String (List Post) :=
  match cache with
  | some c =>
      if page = 0 ∧ forceRefresh = false ∧ now - c.timestamp < CACHE_TTL then
        (some c, Except.ok c.data)
      else getPostsFetch cache page now remote
  | none => getPostsFetch cache page now remote

/-- Result of one run of SquareView.loadPosts: what is displayed
synchronously, whether a silent background refetch
(`getPosts(0, 10, true)`) was started, and whether a blocking
first fetch was started. -/
structure LoadPostsResult where
  shown : List Post
  backgroundRefetch : Bool
  blockingFetch : Bool
deriving Repr, DecidableEq

/-- SquareView.loadPosts lines 131-157: on a cache hit show the cached
data immediately and start a background refetch only when the entry is
older than 30 seconds; on a miss start a blocking fetch. -/
def loadPostsStep (cache : Option PostsCache) (now : Int) : LoadPostsResult :=
  match cache with
  | some c =>
      { shown := c.data
        backgroundRefetch := decide (now - c.timestamp > 30000)
        blockingFetch := false }
  | none => { shown := [], backgroundRefetch := false, blockingFetch := true }

/-- The optimistic cache update at the top of socialService.toggleLike
(lines 258-270): flip isLiked and adjust likes by one, clamping the
decrement at zero.  It runs before the remote write and has no
corresponding rollback anywhere in the failure path. -/
def toggleLikeCacheUpdate (cache : Option PostsCache) (postId : String) :
    Option PostsCache :=
  match cache with
  | none => none
  | some c =>
      some { c with data := c.data.map fun p =>
        if p.id == postId then
          let newLiked := !p.isLiked
          { p with
              isLiked := newLiked
              likes := if newLiked then p.likes + 1 else max 0 (p.likes - 1) }
        else p }

/-- socialService.createComment cache section (lines 186-200): after a
successful insert, increment the cached comment count of the owning
post; on a remote error the error is rethrown before any cache
write.  Only the posts-cache component is modelled. -/
def createCommentModel (cache : Option PostsCache) (postId : String)
    (remote : Except String String) :
    Option PostsCache × Except String String :=
  match remote with
  | Except.error e => (cache, Except.error e)
  | Except.ok newCommentId =>
      (cache.map fun c =>
        { c with data := c.data.map fun p =>
            if p.id == postId then { p with comments := p.comments + 1 } else p },
       Except.ok newCommentId)

/-- socialService.deletePost (lines 226-238): throw on a remote error,
otherwise remove the post from the cached list. -/
def deletePostModel (cache : Option PostsCache) (postId : String)
    (remote : Except String Unit) :
    Option PostsCache × Except String Unit :=
  match remote with
  | Except.error e => (cache, Except.error e)
  | Except.ok _ =>
      (cache.map fun c =>
        { c with data := c.data.filter fun p => p.id != postId },
       Except.ok ())

/-- socialService.createPost (lines 205-224): throw on a remote error,
otherwise set the cache to null and resolve with the inserted row. -/
def createPostModel (cache : Option PostsCache)
    (remote : Except String Post) :
    Option PostsCache × Except String Post :=
  match remote with
  | Except.error e => (cache, Except.error e)
  | Except.ok row => (none, Except.ok row)

/-- The optimistic update of the like button onClick handler in
SquareView (lines 585-588): `isNowLiked` and `newCount` are computed
once from the clicked post (the render snapshot) and written into
every feed entry with that id.  The decrement is NOT clamped at
zero. -/
def likeClickOptimistic (posts : List Post) (post : Post) : List Post :=
  let isNowLiked := !post.isLiked
  let newCount := if isNowLiked then post.likes + 1 else post.likes - 1
  posts.map fun p =>
    if p.id == post.id then { p with isLiked := isNowLiked, likes := newCount }
    else p

/-- The failure branch of the same handler (line 606): rebuild the feed
from the stale render snapshot `posts`, writing back the pre-click
`post.isLiked` and `post.likes` into the entry with that id. -/
def likeClickRevert (posts : List Post) (post : Post) : List Post :=
  let isNowLiked := !post.isLiked
  posts.map fun p =>
    if p.id == post.id then { p with isLiked := !isNowLiked, likes := post.likes }
    else p

/-- The complete failed-toggle-like transition: the view applies the
optimistic update, socialService.toggleLike applies its optimistic
cache update, the remote write fails, and the view catch block runs
the revert (computed from the pre-click snapshot).  No code path
restores the cache. -/
def failedToggleLike (view : List Post) (cache : Option PostsCache)
    (post : Post) : List Post × Option PostsCache :=
  let viewOptimistic := likeClickOptimistic view post
  let cacheOptimistic := toggleLikeCacheUpdate cache post.id
  let viewReverted := likeClickRevert view post
  (viewReverted, (fun _ => cacheOptimistic) viewOptimistic)

/-- Realtime event kinds of the postgres change feed. -/
inductive RtEvent where
  | insert
  | update
  | delete
deriving Repr, DecidableEq

/-- The likesChannel handler in SquareView (lines 80-93): apply a
plus-or-minus-one delta to the affected post's like count, clamped at
zero. -/
def applyLikesEvent (posts : List Post) (ev : RtEvent) (postId : String) :
    List Post :=
  posts.map fun p =>
    if p.id == postId then
      let delta : Int :=
        match ev with
        | RtEvent.insert => 1
        | RtEvent.delete => -1
        | RtEvent.update => 0
      { p with likes := max 0 (p.likes + delta) }
    else p

/-- The commentsChannel handler in SquareView (lines 107-120): the same
clamped delta on the comment count. -/
def applyCommentsEvent (posts : List Post) (ev : RtEvent) (postId : String) :
    List Post :=
  posts.map fun p =>
    if p.id == postId then
      let delta : Int :=
        match ev with
        | RtEvent.insert => 1
        | RtEvent.delete => -1
        | RtEvent.update => 0
      { p with comments := max 0 (p.comments + delta) }
    else p

/-- The postsChannel INSERT handler in SquareView (lines 44-52): after
fetching the full post by the event id, prepend it unless a post with
that id is already in the feed. -/
def applyPostInsert (feed : List Post) (fullPost : Post) : List Post :=
  if feed.any fun p => p.id == fullPost.id then feed
  else fullPost :: feed

/-- The reconciliation step of SquareView.publishPost (lines 330-337):
if the realtime listener already prepended the real post, drop the
temporary entry; otherwise replace the temporary entry with the real
post. -/
def reconcilePublish (feed : List Post) (tempId : String) (fullPost : Post) :
    List Post :=
  if feed.any fun p => p.id == fullPost.id then
    feed.filter fun p => p.id != tempId
  else
    feed.map fun p => if p.id == tempId then fullPost else p

/-- Number of feed entries carrying a given id. -/
def countId (feed : List Post) (i : String) : Nat :=
  feed.countP fun p => p.id == i

/-- The search-as-you-type state of FriendsView: the monotonically
increasing sequence counter `searchSeqRef` and the displayed
`searchResults`. -/
structure SearchState where
  seq : Nat
  results : List String
deriving Repr, DecidableEq

/-- Start of the debounced body of FriendsView.handleSearch (line 164):
increment the counter and remember the value as this request's
sequence number. -/
def issueSearch (s : SearchState) : SearchState × Nat :=
  ({ s with seq := s.seq + 1 }, s.seq + 1)

/-- Response arrival in FriendsView.handleSearch (lines 169-173): the
results are applied only when this request is still the latest. -/
def completeSearch (s : SearchState) (currentSeq : Nat)
    (payload : List String) : SearchState :=
  if currentSeq == s.seq then { s with results := payload } else s

/-- Milliseconds per calendar day. -/
def msPerDay : Int := 86400000

/-- The instant stored by noteService.createNote (line 51):
`new Date(note.date).toISOString()` parses a date-only string as UTC
midnight of that calendar day, else the creation instant is used.
Division below is Euclidean, which agrees with floor division for the
positive divisor msPerDay. -/
def createNoteStoredAt (noteDate : Option Int) (now : Int) : Int :=
  match noteDate with
  | some d => d * msPerDay
  | none => now

/-- The UTC calendar day of an instant, as computed by
`toISOString().split('T')[0]` in noteService (lines 23 and 63). -/
def utcDayOf (t : Int) : Int := t / msPerDay

/-- A stored notes row as noteService reads it back. -/
structure NoteRow where
  id : String
  title : String
  content : String
  category : String
  created_at : Int
  last_edited : Int
deriving Repr, DecidableEq

/-- The client-side note as produced by the noteService mapping. -/
structure Note where
  id : String
  title : String
  content : String
  category : String
  date : Int
  lastEdited : Int
deriving Repr, DecidableEq

/-- noteService.getNotes (lines 6-26): a remote error resolves with
`[]`; otherwise each row's date is the UTC calendar day of its
created_at. -/
def getNotesModel (remote : Except String (List NoteRow)) :
    Except String (List Note) :=
  match remote with
  | Except.error _ => Except.ok []
  | Except.ok rows =>
      Except.ok (rows.map fun n =>
        { id := n.id, title := n.title, content := n.content,
          category := n.category, date := utcDayOf n.created_at,
          lastEdited := n.last_edited })

/-- The calendar-heatmap lookup of HomeView: notes whose date string
equals the selected local calendar day
(`notes.filter(note => note.date === selectedDateStr)`). -/
def heatmapNotesFor (notes : List Note) (dayStr : Int) : List Note :=
  notes.filter fun n => n.date == dayStr

/-- A friendships row: user_id is the initiator, friend_id the
recipient. -/
structure FriendshipRow where
  id : String
  user_id : String
  friend_id : String
  status : String
deriving Repr, DecidableEq

/-- friendService.respondToFriendRequest (lines 364-376): update the
status of rows matching both the friendship id and
`friend_id = userId`, then `.single()` rejects unless exactly one row
was returned.  Result is the table after the update paired with the
resolution. -/
def respondToFriendRequestModel (table : List FriendshipRow)
    (userId friendshipId status : String) :
    List FriendshipRow × Except String FriendshipRow :=
  let updated := table.map fun r =>
    if r.id == friendshipId && r.friend_id == userId then
      { r with status := status }
    else r
  let matched := updated.filter fun r =>
    r.id == friendshipId && r.friend_id == userId
  match matched with
  | [r] => (updated, Except.ok r)
  | _ => (updated, Except.error "PGRST116: JSON object requested, multiple (or no) rows returned")

/-- The result object of notificationService.sendStudyReminder. -/
structure ReminderResult where
  success : Bool
  message : Option String
deriving Repr, DecidableEq

/-- notificationService.sendStudyReminder (lines 80-108): remote
failures of the cooldown check or of the insert are rethrown; a recent
reminder resolves with success := false; otherwise success := true. -/
def sendStudyReminderModel (checkRemote : Except String (List String))
    (insertRemote : Except String Unit) : Except String ReminderResult :=
  match checkRemote with
  | Except.error e => Except.error e
  | Except.ok recent =>
      if recent.length > 0 then
        Except.ok { success := false, message := some "already reminded today" }
      else
        match insertRemote with
        | Except.error e => Except.error e
        | Except.ok _ => Except.ok { success := true, message := none }

/-- The onCommentAdded callback of SquareView (lines 667-670):
increment the displayed comment count of the post that received a
comment. -/
def commentCountIncrement (posts : List Post) (postId : String) : List Post :=
  posts.map fun p =>
    if p.id == postId then { p with comments := p.comments + 1 } else p

/-- Concrete post used in the claim C1 scenario: likeCount 5, not
liked. -/
def post5 : Post :=
  { id := "p1", userId := "u1", content := "hello", likes := 5,
    comments := 0, isLiked := false, isBookmarked := false }

/-- Concrete post for the non-negativity scenario: count 0, not
liked. -/
def post0 : Post :=
  { id := "p", userId := "u", content := "c", likes := 0,
    comments := 0, isLiked := false, isBookmarked := false }

/-- The same post as displayed after a like toggle followed by a
realtime likes DELETE event: count 0 but still marked liked. -/
def post0Liked : Post := { post0 with likes := 0, isLiked := true }

/-- Concrete optimistic temp post for the publish scenario. -/
def tempPost : Post :=
  { id := "temp-1700000000000", userId := "u1", content := "hi",
    likes := 0, comments := 0, isLiked := false, isBookmarked := false }

/-- Concrete server-confirmed post for the publish scenario. -/
def realPost : Post :=
  { id := "r42", userId := "u1", content := "hi", likes := 0,
    comments := 0, isLiked := false, isBookmarked := false }

/-- Concrete pending friendship row: alice initiated a request to
bob. -/
def pendingRow : FriendshipRow :=
  { id := "f1", user_id := "alice", friend_id := "bob", status := "pending" }

/-- C1 counterexample: starting from a feed and cache both holding a
post with likeCount 5 and isLiked false, a failed toggle-like leaves
the displayed feed restored but leaves the socialService posts cache
with the flipped value (likeCount 6, isLiked true) - no code path
rolls the cache back, so a cache entry IS left partially updated. -/
theorem like_rollback_cache_not_restored_cex :
    (failedToggleLike [post5] (some { data := [post5], timestamp := 0 }) post5).1
      = [post5]
    ∧ (failedToggleLike [post5] (some { data := [post5], timestamp := 0 }) post5).2
      = some { data := [{ post5 with isLiked := true, likes := 6 }],
               timestamp := 0 }
    ∧ (failedToggleLike [post5] (some { data := [post5], timestamp := 0 }) post5).2
      ≠ some { data := [post5], timestamp := 0 } := by
  refine ⟨rfl, rfl, ?_⟩
  decide

/-- C1 (amended): after a failed toggle-like, the view-local feed is
restored to the exact pre-mutation snapshot (the failure branch
rebuilds the feed from the captured render snapshot), while the
socialService posts cache keeps the optimistic flip applied by
toggleLike, which is never rolled back. -/
theorem like_rollback_view_restores_snapshot (view : List Post)
    (cache : Option PostsCache) (post : Post)
    (hUnique : ∀ p ∈ view, p.id = post.id → p = post) :
    (failedToggleLike view cache post).1 = view
    ∧ (failedToggleLike view cache post).2
        = toggleLikeCacheUpdate cache post.id := by
  refine ⟨?_, rfl⟩
  show likeClickRevert view post = view
  unfold likeClickRevert
  simp only [Bool.not_not]
  conv_rhs => rw [← List.map_id view]
  apply List.map_congr_left
  intro p hp
  by_cases h : (p.id == post.id) = true
  · have hpe : p = post := hUnique p hp (by simpa using h)
    subst hpe
    simp [h]
  · simp [h]

/-- C1 witness: the amended rollback theorem applied to the concrete
likeCount-5 scenario. -/
theorem like_rollback_view_restores_snapshot_witness :
    (failedToggleLike [post5] (some { data := [post5], timestamp := 0 }) post5).1
      = [post5]
    ∧ (failedToggleLike [post5] (some { data := [post5], timestamp := 0 }) post5).2
        = toggleLikeCacheUpdate (some { data := [post5], timestamp := 0 })
            post5.id :=
  like_rollback_view_restores_snapshot [post5]
    (some { data := [post5], timestamp := 0 }) post5 (by decide)

/-- C2: the realtime post-insert handler is idempotent per id:
applying the same insert twice equals applying it once, an insert
whose id is already present leaves the feed unchanged, and inserting
into a feed without that id yields exactly one copy. -/
theorem realtime_post_insert_idempotent (feed : List Post) (fullPost : Post) :
    applyPostInsert (applyPostInsert feed fullPost) fullPost
      = applyPostInsert feed fullPost
    ∧ ((∃ q ∈ feed, q.id = fullPost.id) →
        applyPostInsert feed fullPost = feed)
    ∧ (countId feed fullPost.id = 0 →
        countId (applyPostInsert feed fullPost) fullPost.id = 1) := by
  refine ⟨?_, ?_, ?_⟩
  · by_cases h : feed.any (fun p => p.id == fullPost.id) = true
    · simp [applyPostInsert, h]
    · simp [applyPostInsert, h]
  · intro ⟨q, hq, hid⟩
    have : feed.any (fun p => p.id == fullPost.id) = true := by
      rw [List.any_eq_true]
      exact ⟨q, hq, by simp [hid]⟩
    simp [applyPostInsert, this]
  · intro h
    have hz : ∀ p ∈ feed, ¬ (p.id == fullPost.id) = true := by
      rw [← List.countP_eq_zero]
      exact h
    have : feed.any (fun p => p.id == fullPost.id) = false := by
      rw [List.any_eq_false]
      exact hz
    simp [applyPostInsert, this, countId, List.countP_cons]
    intro a ha
    exact fun hEq => (hz a ha) (by simp [hEq])

/-- C2 witness: the idempotence theorem instantiated at concrete
feeds, with both conditional parts discharged. -/
theorem realtime_post_insert_idempotent_witness :
    (∃ q ∈ [realPost], q.id = realPost.id)
    ∧ applyPostInsert [realPost] realPost = [realPost]
    ∧ countId [tempPost] realPost.id = 0
    ∧ countId (applyPostInsert [tempPost] realPost) realPost.id = 1 :=
  ⟨⟨realPost, by decide, rfl⟩,
   (realtime_post_insert_idempotent [realPost] realPost).2.1
     ⟨realPost, by decide, rfl⟩,
   by decide,
   (realtime_post_insert_idempotent [tempPost] realPost).2.2 (by decide)⟩

/-- C3: with the sequence counter of FriendsView.handleSearch, after
two queries are issued in order, the displayed results equal the
second query's payload whichever order the two responses arrive in;
the stale first response is discarded. -/
theorem stale_search_response_discarded (s0 : SearchState)
    (payload1 payload2 : List String) :
    (completeSearch (completeSearch (issueSearch (issueSearch s0).1).1
        (issueSearch (issueSearch s0).1).2 payload2)
        (issueSearch s0).2 payload1).results = payload2
    ∧ (completeSearch (completeSearch (issueSearch (issueSearch s0).1).1
        (issueSearch s0).2 payload1)
        (issueSearch (issueSearch s0).1).2 payload2).results = payload2 := by
  simp [issueSearch, completeSearch]

/-- C4: a posts cache entry fetched at T is served without a
background refetch when read at T+10s, is served with exactly one
background refetch when read at T+31s (the 30-second window), and the
forced refetch replaces the cache wholesale on completion. -/
theorem cache_freshness_window (d fresh : List Post) (T nowBg : Int)
    (old : Option PostsCache) :
    loadPostsStep (some { data := d, timestamp := T }) (T + 10000)
      = { shown := d, backgroundRefetch := false, blockingFetch := false }
    ∧ loadPostsStep (some { data := d, timestamp := T }) (T + 31000)
      = { shown := d, backgroundRefetch := true, blockingFetch := false }
    ∧ getPostsModel old 0 true nowBg (Except.ok fresh)
      = (some { data := fresh, timestamp := nowBg }, Except.ok fresh) := by
  refine ⟨?_, ?_, ?_⟩
  · simp [loadPostsStep]
  · simp [loadPostsStep]
  · cases old <;> simp [getPostsModel, getPostsFetch]

/-- C5: in a feed that does not yet hold the temporary or the real id,
the optimistic temp post is visible exactly once after the prepend,
and after the publish reconciliation and the realtime insert run in
either order the feed holds the server id exactly once and the
temporary id not at all. -/
theorem temp_id_reconciliation (feed0 : List Post) (optim fullPost : Post)
    (hneq : optim.id ≠ fullPost.id)
    (hTempFresh : ∀ p ∈ feed0, p.id ≠ optim.id)
    (hRealFresh : ∀ p ∈ feed0, p.id ≠ fullPost.id) :
    countId (optim :: feed0) optim.id = 1
    ∧ countId (applyPostInsert
        (reconcilePublish (optim :: feed0) optim.id fullPost) fullPost)
        fullPost.id = 1
    ∧ countId (applyPostInsert
        (reconcilePublish (optim :: feed0) optim.id fullPost) fullPost)
        optim.id = 0
    ∧ countId (reconcilePublish
        (applyPostInsert (optim :: feed0) fullPost) optim.id fullPost)
        fullPost.id = 1
    ∧ countId (reconcilePublish
        (applyPostInsert (optim :: feed0) fullPost) optim.id fullPost)
        optim.id = 0 := by
  have hTemp0 : List.countP (fun p => p.id == optim.id) feed0 = 0 :=
    List.countP_eq_zero.mpr (fun p hp => by simp [hTempFresh p hp])
  have hReal0 : List.countP (fun p => p.id == fullPost.id) feed0 = 0 :=
    List.countP_eq_zero.mpr (fun p hp => by simp [hRealFresh p hp])
  have hAny0 : ((optim :: feed0).any fun p => p.id == fullPost.id) = false := by
    rw [List.any_eq_false]
    intro p hp
    rcases List.mem_cons.mp hp with h | h
    · subst h; simp [hneq]
    · simp [hRealFresh p h]
  have hRec1 : reconcilePublish (optim :: feed0) optim.id fullPost
      = fullPost :: feed0 := by
    simp only [reconcilePublish, hAny0, Bool.false_eq_true, if_false,
      List.map_cons, beq_self_eq_true, if_true]
    congr 1
    conv_rhs => rw [← List.map_id feed0]
    apply List.map_congr_left
    intro p hp
    simp [hTempFresh p hp]
  have hIns1 : applyPostInsert (fullPost :: feed0) fullPost
      = fullPost :: feed0 := by
    simp [applyPostInsert]
  have hIns2 : applyPostInsert (optim :: feed0) fullPost
      = fullPost :: optim :: feed0 := by
    simp only [applyPostInsert, hAny0, Bool.false_eq_true, if_false]
  have hRec2 : reconcilePublish (fullPost :: optim :: feed0) optim.id fullPost
      = fullPost :: feed0 := by
    have hAny2 : ((fullPost :: optim :: feed0).any fun p => p.id == fullPost.id)
        = true := by simp
    simp only [reconcilePublish, hAny2, if_true, List.filter_cons]
    have h1 : (fullPost.id != optim.id) = true := by
      simp [bne_iff_ne]
      exact Ne.symm hneq
    have h2 : (optim.id != optim.id) = false := by simp
    rw [if_pos h1, if_neg (by simp [h2])]
    congr 1
    apply List.filter_eq_self.mpr
    intro p hp
    simp [hTempFresh p hp]
  have hCount1 : countId (fullPost :: feed0) fullPost.id = 1 := by
    simp [countId, List.countP_cons, hReal0]
  have hCount2 : countId (fullPost :: feed0) optim.id = 0 := by
    simp [countId, List.countP_cons, hTemp0, Ne.symm hneq]
  refine ⟨?_, ?_, ?_, ?_, ?_⟩
  · simp [countId, List.countP_cons, hTemp0]
  · rw [hRec1, hIns1]; exact hCount1
  · rw [hRec1, hIns1]; exact hCount2
  · rw [hIns2, hRec2]; exact hCount1
  · rw [hIns2, hRec2]; exact hCount2

/-- C5 witness: the reconciliation theorem at a concrete empty prior
feed with a concrete temp and real post. -/
theorem temp_id_reconciliation_witness :
    countId (tempPost :: []) tempPost.id = 1
    ∧ countId (applyPostInsert
        (reconcilePublish (tempPost :: []) tempPost.id realPost) realPost)
        realPost.id = 1
    ∧ countId (applyPostInsert
        (reconcilePublish (tempPost :: []) tempPost.id realPost) realPost)
        tempPost.id = 0
    ∧ countId (reconcilePublish
        (applyPostInsert (tempPost :: []) realPost) tempPost.id realPost)
        realPost.id = 1
    ∧ countId (reconcilePublish
        (applyPostInsert (tempPost :: []) realPost) tempPost.id realPost)
        tempPost.id = 0 :=
  temp_id_reconciliation [] tempPost realPost (by decide)
    (by intro p hp; cases hp) (by intro p hp; cases hp)

/-- C6 counterexample: a remote-call failure in getPosts (and in
getNotes) resolves successfully with an empty list - a sentinel -
instead of rejecting, contradicting the claim that every service
operation rejects on remote failure. -/
theorem read_error_sentinel_cex :
    getPostsModel none 0 false 0 (Except.error "network failure")
      = (none, Except.ok ([] : List Post))
    ∧ getNotesModel (Except.error "network failure")
      = Except.ok ([] : List Note) := ⟨rfl, rfl⟩

/-- C6 (amended): mutation-path service functions (createPost,
createComment, deletePost, sendStudyReminder) reject on remote
failure, while read-path list fetchers (getPosts, getNotes) swallow
the failure and resolve with an empty list. -/
theorem error_propagation_by_kind (e : String) (cache : Option PostsCache)
    (now : Int) (pid : String) (ins : Except String Unit) :
    (createPostModel cache (Except.error e)).2 = Except.error e
    ∧ (createCommentModel cache pid (Except.error e)).2 = Except.error e
    ∧ (deletePostModel cache pid (Except.error e)).2 = Except.error e
    ∧ sendStudyReminderModel (Except.error e) ins = Except.error e
    ∧ (getPostsModel cache 0 true now (Except.error e)).2
        = Except.ok ([] : List Post)
    ∧ getNotesModel (Except.error e) = Except.ok ([] : List Note) := by
  refine ⟨rfl, rfl, rfl, rfl, ?_, rfl⟩
  cases cache <;> simp [getPostsModel, getPostsFetch]

/-- C7 counterexample: starting from a post with likeCount 0, a like
toggle followed by a realtime likes DELETE event (clamped at zero)
leaves the post displayed as liked with count 0; unliking it then
drives the displayed likeCount to -1, because the optimistic toggle
in the view does not clamp the decrement. -/
theorem like_count_negative_cex :
    (likeClickOptimistic
        (applyLikesEvent (likeClickOptimistic [post0] post0) RtEvent.delete "p")
        post0Liked).map Post.likes = [-1]
    ∧ ¬ ∀ p ∈ likeClickOptimistic
          (applyLikesEvent (likeClickOptimistic [post0] post0) RtEvent.delete "p")
          post0Liked, 0 ≤ p.likes := by
  constructor
  · rfl
  · decide

/-- C7 (amended): the realtime like and comment delta handlers, the
view comment-count increment, the toggleLike cache update and the
createComment cache update all preserve non-negative counts; only the
view-layer optimistic like toggle can produce a negative count. -/
theorem counts_nonneg_preserved (posts : List Post) (ev : RtEvent)
    (pid : String) (dataList : List Post) (ts : Int)
    (rc : Except String String)
    (h : ∀ p ∈ posts, 0 ≤ p.likes ∧ 0 ≤ p.comments)
    (hd : ∀ p ∈ dataList, 0 ≤ p.likes ∧ 0 ≤ p.comments) :
    (∀ p ∈ applyLikesEvent posts ev pid, 0 ≤ p.likes ∧ 0 ≤ p.comments)
    ∧ (∀ p ∈ applyCommentsEvent posts ev pid, 0 ≤ p.likes ∧ 0 ≤ p.comments)
    ∧ (∀ p ∈ commentCountIncrement posts pid, 0 ≤ p.likes ∧ 0 ≤ p.comments)
    ∧ (∀ c, toggleLikeCacheUpdate (some { data := dataList, timestamp := ts }) pid
          = some c → ∀ p ∈ c.data, 0 ≤ p.likes ∧ 0 ≤ p.comments)
    ∧ (∀ c, (createCommentModel (some { data := dataList, timestamp := ts })
            pid rc).1 = some c →
          ∀ p ∈ c.data, 0 ≤ p.likes ∧ 0 ≤ p.comments) := by
  refine ⟨?_, ?_, ?_, ?_, ?_⟩
  · intro p hp
    rcases List.mem_map.mp hp with ⟨a, ha, hEq⟩
    subst hEq
    by_cases hc : (a.id == pid) = true
    · rw [if_pos hc]
      exact ⟨le_max_left 0 _, (h a ha).2⟩
    · rw [if_neg hc]
      exact h a ha
  · intro p hp
    rcases List.mem_map.mp hp with ⟨a, ha, hEq⟩
    subst hEq
    by_cases hc : (a.id == pid) = true
    · rw [if_pos hc]
      exact ⟨(h a ha).1, le_max_left 0 _⟩
    · rw [if_neg hc]
      exact h a ha
  · intro p hp
    rcases List.mem_map.mp hp with ⟨a, ha, hEq⟩
    subst hEq
    by_cases hc : (a.id == pid) = true
    · rw [if_pos hc]
      refine ⟨(h a ha).1, ?_⟩
      have := (h a ha).2
      show (0 : Int) ≤ a.comments + 1
      omega
    · rw [if_neg hc]
      exact h a ha
  · intro c hc p hp
    simp only [toggleLikeCacheUpdate, Option.some.injEq] at hc
    subst hc
    rcases List.mem_map.mp hp with ⟨a, ha, hEq⟩
    subst hEq
    by_cases hcond : (a.id == pid) = true
    · rw [if_pos hcond]
      refine ⟨?_, (hd a ha).2⟩
      cases hL : a.isLiked
      · simp only [hL, Bool.not_false, if_true]
        have := (hd a ha).1
        show (0 : Int) ≤ a.likes + 1
        omega
      · simp only [hL, Bool.not_true, Bool.false_eq_true, if_false]
        exact le_max_left 0 _
    · rw [if_neg hcond]
      exact hd a ha
  · intro c hc p hp
    cases rc with
    | error e =>
        simp only [createCommentModel, Option.some.injEq] at hc
        subst hc
        exact hd p hp
    | ok v =>
        simp only [createCommentModel, Option.map_some', Option.some.injEq] at hc
        subst hc
        rcases List.mem_map.mp hp with ⟨a, ha, hEq⟩
        subst hEq
        by_cases hcond : (a.id == pid) = true
        · rw [if_pos hcond]
          refine ⟨(hd a ha).1, ?_⟩
          have := (hd a ha).2
          show (0 : Int) ≤ a.comments + 1
          omega
        · rw [if_neg hcond]
          exact hd a ha

/-- C7 witness: the preservation theorem at a concrete one-post feed
and cache. -/
theorem counts_nonneg_preserved_witness :
    (∀ p ∈ applyLikesEvent [post0] RtEvent.insert "p",
        0 ≤ p.likes ∧ 0 ≤ p.comments)
    ∧ (∀ p ∈ applyCommentsEvent [post0] RtEvent.insert "p",
        0 ≤ p.likes ∧ 0 ≤ p.comments)
    ∧ (∀ p ∈ commentCountIncrement [post0] "p", 0 ≤ p.likes ∧ 0 ≤ p.comments)
    ∧ (∀ c, toggleLikeCacheUpdate (some { data := [post0], timestamp := 0 }) "p"
          = some c → ∀ p ∈ c.data, 0 ≤ p.likes ∧ 0 ≤ p.comments)
    ∧ (∀ c, (createCommentModel (some { data := [post0], timestamp := 0 })
            "p" (Except.ok "cid")).1 = some c →
          ∀ p ∈ c.data, 0 ≤ p.likes ∧ 0 ≤ p.comments) :=
  counts_nonneg_preserved [post0] RtEvent.insert "p" [post0] 0
    (Except.ok "cid") (by decide) (by decide)

/-- C8: a note created with calendar day d reads back with date d
(UTC-midnight storage followed by UTC-day extraction is the
identity on day numbers), and a note carrying date d is matched by
the calendar-heatmap lookup for day d. -/
theorem note_date_round_trip (dayStr now lastEd : Int)
    (nid ntitle ncontent ncategory : String) (notes : List Note) :
    getNotesModel (Except.ok [{ id := nid, title := ntitle,
                                content := ncontent, category := ncategory,
                                created_at := createNoteStoredAt (some dayStr) now,
                                last_edited := lastEd }])
      = Except.ok [{ id := nid, title := ntitle, content := ncontent,
                     category := ncategory, date := dayStr, lastEdited := lastEd }]
    ∧ heatmapNotesFor ({ id := nid, title := ntitle, content := ncontent,
                          category := ncategory, date := dayStr,
                          lastEdited := lastEd } :: notes) dayStr
      = { id := nid, title := ntitle, content := ncontent,
          category := ncategory, date := dayStr, lastEdited := lastEd }
          :: heatmapNotesFor notes dayStr := by
  constructor
  · simp [getNotesModel, createNoteStoredAt, utcDayOf]
    exact Int.mul_ediv_cancel dayStr (by norm_num [msPerDay])
  · simp [heatmapNotesFor]

/-- C9: when the posts cache is a miss, the optimistic cache
adjustments of createComment, toggleLike and deletePost all leave the
cache a miss. -/
theorem cache_miss_mutation_noop (pid : String) (rc : Except String String)
    (ru : Except String Unit) :
    (createCommentModel none pid rc).1 = none
    ∧ toggleLikeCacheUpdate none pid = none
    ∧ (deletePostModel none pid ru).1 = none := by
  refine ⟨?_, rfl, ?_⟩
  · cases rc <;> rfl
  · cases ru <;> rfl

/-- C10: if the acting user is not the recipient (friend_id) of the
named friendship row, respondToFriendRequest modifies no row and
rejects (the filtered update matches nothing and single() errors). -/
theorem respond_requires_recipient (table : List FriendshipRow)
    (userId fid status : String)
    (h : ∀ r ∈ table, r.id = fid → r.friend_id ≠ userId) :
    (respondToFriendRequestModel table userId fid status).1 = table
    ∧ ∃ e, (respondToFriendRequestModel table userId fid status).2
        = Except.error e := by
  have hcond : ∀ r ∈ table, (r.id == fid && r.friend_id == userId) = false := by
    intro r hr
    by_cases h1 : r.id = fid
    · have := h r hr h1
      simp [this]
    · simp [h1]
  have hUpd : (table.map fun r =>
      if r.id == fid && r.friend_id == userId then { r with status := status }
      else r) = table := by
    conv_rhs => rw [← List.map_id table]
    apply List.map_congr_left
    intro r hr
    rw [if_neg (by simp [hcond r hr])]
    rfl
  have hFilt : (table.filter fun r =>
      r.id == fid && r.friend_id == userId) = [] := by
    apply List.filter_eq_nil_iff.mpr
    intro r hr
    simp [hcond r hr]
  constructor
  · show (respondToFriendRequestModel table userId fid status).1 = table
    simp only [respondToFriendRequestModel, hUpd, hFilt]
  · refine ⟨"PGRST116: JSON object requested, multiple (or no) rows returned", ?_⟩
    simp only [respondToFriendRequestModel, hUpd, hFilt]

/-- C10 witness: the initiator alice cannot accept her own pending
request to bob - the table is unchanged and the call rejects. -/
theorem respond_requires_recipient_witness :
    (respondToFriendRequestModel [pendingRow] "alice" "f1" "accepted").1
      = [pendingRow]
    ∧ ∃ e, (respondToFriendRequestModel [pendingRow] "alice" "f1" "accepted").2
        = Except.error e :=
  respond_requires_recipient [pendingRow] "alice" "f1" "accepted" (by decide)
